import Mathlib

/-!
Verification of the Fathom proxy server (`api/index.js`, authoritative variant
in the repository root server file).  The development shallowly embeds:

* the pagination drain `fetchAllMeetings` (items/cursor extraction, 429
  retry with exponential backoff, hard-error propagation),
* the record normalizer `serializeMeeting`,
* the in-memory meetings cache with its 5-minute TTL,
* the `GET /api/meetings` handler and the
  `GET /api/meetings/:id/transcript` handler (including JS `parseInt`
  semantics for the id).

JS truthiness is modelled explicitly wherever the source branches on it
(`||` chains, `if (x)` tests): a missing field is `none`, a present string
is truthy iff nonempty, a present number is truthy iff nonzero.
-/

set_option autoImplicit false

namespace Fathom

/-! ### Meeting records

A raw meeting record as it arrives from the upstream page.  The claims only
exercise null records and plain JS objects with string-valued fields, so the
model carries an association list of string fields plus the three dynamic
properties `serializeMeeting` inspects: presence of a truthy `toJSON`
member, presence of a truthy `to_dict` member, and whether
`JSON.stringify` on the record throws (circular structure). -/
inductive Meeting where
  | nullv
  | obj (fields : List (String × String)) (hasToJSON hasToDict serializeFails : Bool)
deriving DecidableEq, Repr

/-- Field access on a record: `fields.lookup k`, `none` = JS `undefined`. -/
def fget (fs : List (String × String)) (k : String) : Option String :=
  fs.lookup k

/-- Truthiness of an optional JS string value: present and nonempty. -/
def truthyStr : Option String → Bool
  | some s => s ≠ ""
  | none => false

/-- JS `a || b` on optional string values: `a` if truthy, else `b`. -/
def jsOrS (a b : Option String) : Option String :=
  if truthyStr a then a else b

/-! ### Upstream page responses

The drain inspects the page response dynamically.  `DataField` models the
`data` member of the response: absent (or falsy), an array, an object with a
truthy `items` array, or an object without one. -/
inductive DataField where
  | missing
  | arrOf (xs : List Meeting)
  | objWithItems (xs : List Meeting)
  | objNoItems
deriving DecidableEq, Repr

/-- The members of an object-shaped page response that the drain reads.
`items` is `some xs` when the `items` member is present holding an array
(arrays are truthy in JS even when empty).  The three cursor members are
`none` when absent; a present cursor string is truthy iff nonempty. -/
structure PageObj where
  items : Option (List Meeting)
  data : DataField
  next_cursor : Option String
  cursor : Option String
  pagNext : Option String
deriving DecidableEq, Repr

/-- A page response: either a bare array or an object. -/
inductive UpResponse where
  | arr (xs : List Meeting)
  | obj (p : PageObj)
deriving DecidableEq, Repr

/-- Item extraction from a page response, translated from the source:
`Array.isArray(response)` / `response.items` / `response.data` as array /
`response.data.items`, first match wins, `[]` when none match. -/
def extractItems : UpResponse → List Meeting
  | .arr xs => xs
  | .obj p =>
    match p.items with
    | some xs => xs
    | none =>
      match p.data with
      | .arrOf xs => xs
      | .objWithItems xs => xs
      | _ => []

/-- Cursor extraction, translated from the source:
`response.next_cursor || response.cursor || response.pagination?.next_cursor
|| null`, followed by `hasMore = cursor !== null && cursor !== undefined`.
The result is `some c` (with `c` truthy) exactly when the loop continues. -/
def extractCursor : UpResponse → Option String
  | .arr _ => none
  | .obj p =>
    let c := jsOrS p.next_cursor (jsOrS p.cursor p.pagNext)
    if truthyStr c then c else none

/-! Spec-side extraction, for the refinement claim about shape priority:
an explicit ordered list of extraction strategies, first match wins. -/

/-- Shape 1 of the spec's priority list: the response is a bare list. -/
def shapeBare : UpResponse → Option (List Meeting)
  | .arr xs => some xs
  | .obj _ => none

/-- Shape 2: an `items` key. -/
def shapeItems : UpResponse → Option (List Meeting)
  | .arr _ => none
  | .obj p => p.items

/-- Shape 3: `data` as a list. -/
def shapeDataArr : UpResponse → Option (List Meeting)
  | .arr _ => none
  | .obj p =>
    match p.data with
    | .arrOf xs => some xs
    | _ => none

/-- Shape 4: `data.items`. -/
def shapeDataItems : UpResponse → Option (List Meeting)
  | .arr _ => none
  | .obj p =>
    match p.data with
    | .objWithItems xs => some xs
    | _ => none

/-- Modelled from the spec: item extraction as an ordered list of shape
strategies tried in priority order, the first match authoritative, zero
items when none match. -/
def extractItemsSpec (r : UpResponse) : List Meeting :=
  (([shapeBare, shapeItems, shapeDataArr, shapeDataItems].findSome?
      (fun f => f r)).getD [])

/-- Modelled from the spec: cursor extraction as the ordered field list
`next_cursor`, `cursor`, `pagination.next_cursor`, first present truthy
value winning. -/
def extractCursorSpec : UpResponse → Option String
  | .arr _ => none
  | .obj p =>
    [p.next_cursor, p.cursor, p.pagNext].findSome?
      (fun o => o.bind (fun s => if s = "" then none else some s))

/-- True when none of the four item shapes matches the response. -/
def noShapeMatch (r : UpResponse) : Bool :=
  ([shapeBare, shapeItems, shapeDataArr, shapeDataItems].findSome?
      (fun f => f r)).isNone

/-! ### Error classification

`fathomRequest` raises, for a non-success upstream status, an error with
`status = statusCode =` the HTTP status and message
`Fathom API error: STATUS STATUSTEXT. BODY`.  The standard HTTP reason
phrases contain no digits, so the model omits the reason phrase; this does
not affect whether the message contains the substring `429`. -/

/-- Is the pattern a prefix of the character list? -/
def charsPrefix : List Char → List Char → Bool
  | [], _ => true
  | _ :: _, [] => false
  | a :: ps, b :: ss => a == b && charsPrefix ps ss

/-- Contiguous containment of the pattern in the character list. -/
def charsContain : List Char → List Char → Bool
  | pat, [] => charsPrefix pat []
  | pat, c :: rest => charsPrefix pat (c :: rest) || charsContain pat rest

/-- JS `s.includes(pat)`. -/
def strContains (s pat : String) : Bool :=
  charsContain pat.toList s.toList

/-- The message of the error raised by `fathomRequest` for HTTP status `s`
with response body `b`. -/
def errMessage (s : Nat) (b : String) : String :=
  "Fathom API error: " ++ toString s ++ ". " ++ b

/-- The drain's rate-limit test, translated from the source:
`error.status === 429 || error.statusCode === 429 ||
error.message?.includes('429')` (status and statusCode coincide for
errors raised by `fathomRequest`). -/
def is429 (s : Nat) (b : String) : Bool :=
  (s == 429) || (s == 429) || strContains (errMessage s b) "429"

/-! ### The pagination drain -/

/-- One upstream interaction outcome: a page response, or an error raised
by `fathomRequest` carrying the HTTP status and response body. -/
inductive Outcome where
  | ok (r : UpResponse)
  | err (s : Nat) (b : String)
deriving DecidableEq, Repr

/-- State of the drain loop.  `acc`, `retryCount` and `cursorParam` (the
`cursor` entry of `queryParams`) are the source's variables; `reqLog` (the
cursor sent with each request), `backoffs` (the backoff waits performed, in
milliseconds) and `okLog` (the page responses received) are ghost
instrumentation used to state timing and completeness claims. -/
structure DrainSt where
  acc : List Meeting
  retryCount : Nat
  cursorParam : Option String
  reqLog : List (Option String)
  backoffs : List Nat
  okLog : List UpResponse
deriving DecidableEq, Repr

/-- Maximum number of rate-limit retries. -/
def maxRetries : Nat := 5

/-- Result of the drain: a normal return of the accumulated records, a
propagated error, or exhaustion of the modelled interaction script while
the loop would still be running. -/
inductive DrainRes where
  | ret (records : List Meeting)
  | thrown (s : Nat) (b : String)
  | nofuel
deriving DecidableEq, Repr

/-- The `while (hasMore)` loop of `fetchAllMeetings`, one step per upstream
request, consuming the interaction script outcome by outcome.  On success:
append the extracted items, extract the cursor, reset the retry counter,
and either continue with the new cursor set in the query (after the 500 ms
inter-page delay, not tracked) or return the accumulated records.  On a
rate-limited error: increment the retry counter and either retry the same
page after a `2^retryCount` second wait or, past `maxRetries`, break and
return the accumulated records.  On any other error: propagate it. -/
def drainLoop : List Outcome → DrainSt → DrainRes × DrainSt
  | [], st => (.nofuel, st)
  | .ok r :: os, st =>
    match extractCursor r with
    | some c =>
      drainLoop os
        { acc := st.acc ++ extractItems r
          retryCount := 0
          cursorParam := some c
          reqLog := st.reqLog ++ [st.cursorParam]
          backoffs := st.backoffs
          okLog := st.okLog ++ [r] }
    | none =>
      (.ret (st.acc ++ extractItems r),
        { acc := st.acc ++ extractItems r
          retryCount := 0
          cursorParam := st.cursorParam
          reqLog := st.reqLog ++ [st.cursorParam]
          backoffs := st.backoffs
          okLog := st.okLog ++ [r] })
  | .err s b :: os, st =>
    if is429 s b then
      if st.retryCount + 1 ≤ maxRetries then
        drainLoop os
          { acc := st.acc
            retryCount := st.retryCount + 1
            cursorParam := st.cursorParam
            reqLog := st.reqLog ++ [st.cursorParam]
            backoffs := st.backoffs ++ [2 ^ (st.retryCount + 1) * 1000]
            okLog := st.okLog }
      else
        (.ret st.acc,
          { st with retryCount := st.retryCount + 1,
                    reqLog := st.reqLog ++ [st.cursorParam] })
    else
      (.thrown s b, { st with reqLog := st.reqLog ++ [st.cursorParam] })

/-- Initial drain state: empty accumulator, retry counter 0, no cursor. -/
def initDrain : DrainSt :=
  { acc := [], retryCount := 0, cursorParam := none,
    reqLog := [], backoffs := [], okLog := [] }

/-- `fetchAllMeetings`, as a function of the upstream interaction script. -/
def fetchAllMeetings (os : List Outcome) : DrainRes × DrainSt :=
  drainLoop os initDrain

/-! ### Record normalization -/

/-- Prepend the pair `(k, v)` when the value is defined; JSON serialization
drops keys whose value is `undefined`. -/
def addF (k : String) (v : Option String) (rest : List (String × String)) :
    List (String × String) :=
  match v with
  | some s => (k, s) :: rest
  | none => rest

/-- The fallback record built by `serializeMeeting` when JSON conversion
fails: the fixed set of known field names, with the `title` /
`meeting_title` fallback aliases. -/
def fallbackFields (fs : List (String × String)) : List (String × String) :=
  addF "recording_id" (jsOrS (fget fs "recording_id") (fget fs "id"))
    (addF "title" (jsOrS (fget fs "title") (fget fs "meeting_title"))
      (addF "meeting_title" (jsOrS (fget fs "meeting_title") (fget fs "title"))
        (addF "url" (fget fs "url")
          (addF "share_url" (fget fs "share_url")
            (addF "scheduled_start_time" (fget fs "scheduled_start_time")
              (addF "scheduled_end_time" (fget fs "scheduled_end_time")
                (addF "calendar_invitees_domains_type"
                    (fget fs "calendar_invitees_domains_type")
                  (addF "default_summary" (fget fs "default_summary")
                    (addF "calendar_invitees" (fget fs "calendar_invitees")
                      (addF "created_at" (fget fs "created_at")
                        (addF "recording_start_time"
                            (fget fs "recording_start_time")
                          (addF "recording_end_time"
                              (fget fs "recording_end_time") []))))))))))))

/-- `serializeMeeting`, translated from the source.  A falsy record maps to
JS `null` (modelled `none`).  A plain object (no truthy `toJSON` or
`to_dict` member) is returned unchanged.  Otherwise the record goes through
`JSON.parse(JSON.stringify(...))`, modelled as preserving the data fields
(no claim depends on this branch); if that serialization throws, the fixed
fallback field set is extracted instead. -/
def serializeMeeting : Meeting → Option Meeting
  | .nullv => none
  | .obj fs hTJ hTD sFail =>
    if !hTJ && !hTD then some (.obj fs hTJ hTD sFail)
    else if !sFail then some (.obj fs false false false)
    else some (.obj (fallbackFields fs) false false false)

/-- The `title` field of a record. -/
def mTitle : Meeting → Option String
  | .nullv => none
  | .obj fs _ _ _ => fget fs "title"

/-- `meetings.map(serializeMeeting).filter(m => m !== null)`: the list
served and cached by the meetings handler (`filterMap` = map then drop the
`null` results). -/
def serveList (ms : List Meeting) : List Meeting :=
  ms.filterMap serializeMeeting

/-! ### The meetings cache and the `GET /api/meetings` handler -/

/-- The module-level cache slot: `meetingsCache` and `cacheTimestamp`
(milliseconds), both `null` initially. -/
structure CacheSt where
  meetingsCache : Option (List Meeting)
  cacheTimestamp : Option Int
deriving DecidableEq, Repr

/-- `CACHE_TTL = 5 * 60 * 1000` milliseconds. -/
def CACHE_TTL : Int := 5 * 60 * 1000

/-- The handler's cache check, translated from the source:
`meetingsCache && cacheTimestamp && (now - cacheTimestamp) < CACHE_TTL`.
A present record list is truthy (JS arrays are truthy even when empty);
a present timestamp is truthy iff nonzero. -/
def cacheFresh (st : CacheSt) (now : Int) : Option (List Meeting) :=
  match st.meetingsCache, st.cacheTimestamp with
  | some recs, some ts =>
    if ts ≠ 0 ∧ now - ts < CACHE_TTL then some recs else none
  | _, _ => none

/-- The cache update performed by the handler after a successful drain
(`meetingsCache = serializedMeetings; cacheTimestamp = now`). -/
def cacheSet (records : List Meeting) (now : Int) : CacheSt :=
  { meetingsCache := some records, cacheTimestamp := some now }

/-- Response of the `GET /api/meetings` handler: the item list, or a JSON
error response with the given status. -/
inductive MeetingsRes where
  | items (l : List Meeting)
  | errRes (status : Nat)
deriving DecidableEq, Repr

/-- The `GET /api/meetings` handler.  `now` is the `Date.now()` reading
taken at the start of the handler; `os` is the upstream interaction script
consumed by the drain on a cache miss.  `none` means the script was too
short to determine the drain's outcome (model artifact).  On an error the
response status is `error.status || error.statusCode || 500` and the cache
is left unchanged. -/
def getMeetingsHandler (st : CacheSt) (now : Int) (os : List Outcome) :
    Option (MeetingsRes × CacheSt) :=
  match cacheFresh st now with
  | some recs => some (.items recs, st)
  | none =>
    match drainLoop os initDrain with
    | (.ret records, _) =>
      some (.items (serveList records), cacheSet (serveList records) now)
    | (.thrown s _, _) => some (.errRes (if s ≠ 0 then s else 500), st)
    | (.nofuel, _) => none

/-- All items carried by the successful pages of an interaction script:
the complete upstream result set of the modelled scenario. -/
def allOkItems (os : List Outcome) : List Meeting :=
  (os.filterMap (fun o =>
    match o with
    | .ok r => some (extractItems r)
    | .err _ _ => none)).flatten

/-! ### JS `parseInt` and the transcript endpoint -/

/-- Leading decimal digits of a character list. -/
def leadingDigits : List Char → List Char
  | [] => []
  | c :: cs => if c.isDigit then c :: leadingDigits cs else []

/-- Numeric value of a digit list. -/
def digitsToNat (ds : List Char) : Nat :=
  ds.foldl (fun a c => a * 10 + (c.toNat - 48)) 0

/-- JS `parseInt(s)` (decimal mode; the hexadecimal `0x` autodetection is
omitted, no claim involves it): skip leading whitespace, read an optional
sign, then the longest leading digit run; `none` (NaN) when no digit is
found. -/
def parseIntJs (s : String) : Option Int :=
  let cs := s.toList.dropWhile Char.isWhitespace
  match cs with
  | '-' :: rest =>
    match leadingDigits rest with
    | [] => none
    | ds => some (-(digitsToNat ds : Int))
  | '+' :: rest =>
    match leadingDigits rest with
    | [] => none
    | ds => some ((digitsToNat ds : Int))
  | _ =>
    match leadingDigits cs with
    | [] => none
    | ds => some ((digitsToNat ds : Int))

/-- A JS value as inspected by the transcript handler: primitives, or an
object carrying the only three members the handler reads (`transcript`,
`data`, `result`); other members are behaviorally irrelevant. -/
inductive TVal where
  | undefv
  | nullv
  | boolv (b : Bool)
  | num (n : Int)
  | str (s : String)
  | obj (transcriptF dataF resultF : Option TVal)

/-- JS truthiness of a value. -/
def truthy : TVal → Bool
  | .undefv => false
  | .nullv => false
  | .boolv b => b
  | .num n => n ≠ 0
  | .str s => s ≠ ""
  | .obj _ _ _ => true

/-- Member access `v.transcript` (`undefined` on primitives / absence). -/
def tTranscript : TVal → TVal
  | .obj t _ _ => t.getD .undefv
  | _ => .undefv

/-- Member access `v.data`. -/
def tData : TVal → TVal
  | .obj _ d _ => d.getD .undefv
  | _ => .undefv

/-- Member access `v.result`. -/
def tResult : TVal → TVal
  | .obj _ _ r => r.getD .undefv
  | _ => .undefv

/-- Transcript extraction, translated from the source: `response.transcript`
if truthy, else `response.data && response.data.transcript`, else
`response.result && response.result.transcript`, else the response itself
(the `typeof response === 'string'` branch and the final else both return
the response). -/
def extractTranscript (r : TVal) : TVal :=
  if truthy (tTranscript r) then tTranscript r
  else if truthy (tData r) && truthy (tTranscript (tData r)) then
    tTranscript (tData r)
  else if truthy (tResult r) && truthy (tTranscript (tResult r)) then
    tTranscript (tResult r)
  else r

/-- Outcome of the upstream transcript request. -/
inductive TOutcome where
  | ok (r : TVal)
  | err (s : Nat) (b : String)

/-- Observable response of the transcript handler: HTTP status, the `error`
summary of the JSON body when present, the `recording_id` echoed in the
body when present, the returned transcript when present, and the recording
id sent upstream when an upstream request was made. -/
structure TResult where
  status : Nat
  errorMsg : Option String
  echoedId : Option String
  transcriptOut : Option TVal
  upstreamCalled : Option Int

/-- The `GET /api/meetings/:id/transcript` handler, translated from the
source: parse the id with `parseInt` (400 echoing the literal id on NaN,
no upstream request), fetch the transcript, extract it, answer 404
`Transcript not found` when the extracted value is falsy or when the
upstream error has status 404, 500 otherwise. -/
def transcriptHandler (id : String) (up : TOutcome) : TResult :=
  match parseIntJs id with
  | none =>
    { status := 400, errorMsg := some "Invalid meeting ID",
      echoedId := some id, transcriptOut := none, upstreamCalled := none }
  | some rid =>
    match up with
    | .ok r =>
      let t := extractTranscript r
      if truthy t then
        { status := 200, errorMsg := none, echoedId := none,
          transcriptOut := some t, upstreamCalled := some rid }
      else
        { status := 404, errorMsg := some "Transcript not found",
          echoedId := some id, transcriptOut := none,
          upstreamCalled := some rid }
    | .err s _ =>
      if s = 404 then
        { status := 404, errorMsg := some "Transcript not found",
          echoedId := some id, transcriptOut := none,
          upstreamCalled := some rid }
      else
        { status := 500, errorMsg := some "Failed to fetch transcript",
          echoedId := none, transcriptOut := none,
          upstreamCalled := some rid }

/-! ### Helper lemmas about the drain loop -/

/-- The state reached after a chain of successful pages, mirroring the
success branch of `drainLoop`. -/
def okAdvance : List UpResponse → DrainSt → DrainSt
  | [], st => st
  | r :: rs, st =>
    okAdvance rs
      { acc := st.acc ++ extractItems r
        retryCount := 0
        cursorParam := extractCursor r
        reqLog := st.reqLog ++ [st.cursorParam]
        backoffs := st.backoffs
        okLog := st.okLog ++ [r] }

/-- The query cursor in effect after a chain of pages. -/
def chainCursor : List UpResponse → Option String → Option String
  | [], c => c
  | r :: rs, _ => chainCursor rs (extractCursor r)

/-- The cursors sent with the requests of a chain of pages, given the
initial query cursor. -/
def chainReqLog : List UpResponse → Option String → List (Option String)
  | [], _ => []
  | r :: rs, c => c :: chainReqLog rs (extractCursor r)

theorem drain_ok_chain (rs : List UpResponse) (rest : List Outcome)
    (st : DrainSt) (h : ∀ r ∈ rs, (extractCursor r).isSome) :
    drainLoop (rs.map Outcome.ok ++ rest) st = drainLoop rest (okAdvance rs st) := by
  induction rs generalizing st with
  | nil => rfl
  | cons r rs ih =>
    obtain ⟨c, hc⟩ := Option.isSome_iff_exists.mp (h r (List.mem_cons_self r rs))
    simp only [List.map_cons, List.cons_append, drainLoop, hc, okAdvance]
    exact ih _ (fun x hx => h x (List.mem_cons_of_mem r hx))

theorem okAdvance_acc (rs : List UpResponse) (st : DrainSt) :
    (okAdvance rs st).acc = st.acc ++ (rs.map extractItems).flatten := by
  induction rs generalizing st with
  | nil => simp [okAdvance]
  | cons r rs ih => simp [okAdvance, ih, List.append_assoc]

theorem okAdvance_backoffs (rs : List UpResponse) (st : DrainSt) :
    (okAdvance rs st).backoffs = st.backoffs := by
  induction rs generalizing st with
  | nil => rfl
  | cons r rs ih => simp [okAdvance, ih]

theorem okAdvance_reqLog (rs : List UpResponse) (st : DrainSt) :
    (okAdvance rs st).reqLog = st.reqLog ++ chainReqLog rs st.cursorParam := by
  induction rs generalizing st with
  | nil => simp [okAdvance, chainReqLog]
  | cons r rs ih => simp [okAdvance, chainReqLog, ih, List.append_assoc]

theorem okAdvance_cursorParam (rs : List UpResponse) (st : DrainSt) :
    (okAdvance rs st).cursorParam = chainCursor rs st.cursorParam := by
  induction rs generalizing st with
  | nil => rfl
  | cons r rs ih => simp [okAdvance, chainCursor, ih]

theorem okAdvance_retryCount (rs : List UpResponse) (st : DrainSt)
    (h : st.retryCount = 0) : (okAdvance rs st).retryCount = 0 := by
  induction rs generalizing st with
  | nil => simpa [okAdvance] using h
  | cons r rs ih => simp [okAdvance]; exact ih _ rfl

theorem okAdvance_okLog (rs : List UpResponse) (st : DrainSt) :
    (okAdvance rs st).okLog = st.okLog ++ rs := by
  induction rs generalizing st with
  | nil => simp [okAdvance]
  | cons r rs ih => simp [okAdvance, ih]

/-- Six consecutive rate-limited failures from a fresh retry counter: the
loop performs the initial attempt plus exactly `maxRetries` retries (all
six requests with the same query cursor), waits 2 s, 4 s, 8 s, 16 s, 32 s
before the five retries, then returns the accumulated records normally,
leaving any further scripted outcomes unconsumed. -/
theorem drain_six_429 (b : String) (extra : List Outcome) (st : DrainSt)
    (h : st.retryCount = 0) :
    drainLoop (List.replicate 6 (Outcome.err 429 b) ++ extra) st =
      (.ret st.acc,
       { st with retryCount := 6,
                 reqLog := st.reqLog ++ List.replicate 6 st.cursorParam,
                 backoffs := st.backoffs ++ [2000, 4000, 8000, 16000, 32000] }) := by
  obtain ⟨acc, rc, cp, rl, bo, ol⟩ := st
  simp only at h
  subst h
  have h429 : is429 429 b = true := by simp [is429]
  norm_num [drainLoop, h429, maxRetries, List.replicate, List.append_assoc]

/-- When the drain returns normally, the returned list is the final
accumulator. -/
theorem drain_ret_acc (os : List Outcome) (st : DrainSt) (l : List Meeting)
    (st' : DrainSt) (h : drainLoop os st = (.ret l, st')) : l = st'.acc := by
  induction os generalizing st with
  | nil => simp [drainLoop] at h
  | cons o os ih =>
    cases o with
    | ok r =>
      cases hc : extractCursor r with
      | some c =>
        rw [drainLoop, hc] at h
        exact ih _ h
      | none =>
        rw [drainLoop, hc] at h
        obtain ⟨h1, h2⟩ := Prod.mk.injEq .. ▸ h
        simp at h1 h2
        subst h2
        simpa using h1.symm
    | err s b =>
      by_cases h429 : is429 s b
      · by_cases hrc : st.retryCount + 1 ≤ maxRetries
        · rw [drainLoop] at h
          simp only [h429, if_true, hrc] at h
          exact ih _ h
        · rw [drainLoop] at h
          simp only [h429, if_true, hrc, if_false] at h
          obtain ⟨h1, h2⟩ := Prod.mk.injEq .. ▸ h
          simp at h1 h2
          subst h2
          simpa using h1.symm
      · rw [drainLoop] at h
        simp [h429] at h

/-- Invariant: the accumulator is always the concatenation, page by page,
of the items extracted from the successful responses received so far —
whole pages only. -/
theorem drain_okLog_inv (os : List Outcome) (st : DrainSt)
    (h : st.acc = (st.okLog.map extractItems).flatten) :
    (drainLoop os st).2.acc =
      (((drainLoop os st).2.okLog).map extractItems).flatten := by
  induction os generalizing st with
  | nil => simpa [drainLoop] using h
  | cons o os ih =>
    cases o with
    | ok r =>
      cases hc : extractCursor r with
      | some c =>
        rw [drainLoop, hc]
        exact ih _ (by simp [h])
      | none =>
        rw [drainLoop, hc]
        simp [h]
    | err s b =>
      by_cases h429 : is429 s b
      · by_cases hrc : st.retryCount + 1 ≤ maxRetries
        · rw [drainLoop]
          simp only [h429, if_true, hrc]
          exact ih _ (by simp [h])
        · rw [drainLoop]
          simp only [h429, if_true, hrc, if_false]
          simpa using h
      · rw [drainLoop]
        simp [h429, h]

/-! ### Sample data for witnesses and counterexamples -/

/-- A sample record. -/
def recA : Meeting := .obj [("title", "a")] false false false

/-- A second sample record. -/
def recB : Meeting := .obj [("title", "b")] false false false

/-- A page carrying `recA` and a continuation cursor. -/
def pageMore : UpResponse :=
  .obj { items := some [recA], data := .missing,
         next_cursor := some "c1", cursor := none, pagNext := none }

/-- A final page carrying `recB` and no cursor. -/
def pageLast : UpResponse :=
  .obj { items := some [recB], data := .missing,
         next_cursor := none, cursor := none, pagNext := none }

/-! ### Claim C1 -/

/-- C1: for every sequence of upstream pages whose last page carries an
absent cursor (the earlier pages carrying cursors, so the chain is
followed), `fetchAllMeetings` terminates and returns normally the
concatenation of all pages' item lists in page order, item order preserved
within each page. -/
theorem c1_drain_returns_concatenation (pre : List UpResponse)
    (lastR : UpResponse) (hpre : ∀ r ∈ pre, (extractCursor r).isSome)
    (hlast : extractCursor lastR = none) :
    (fetchAllMeetings ((pre ++ [lastR]).map Outcome.ok)).1 =
      .ret (((pre ++ [lastR]).map extractItems).flatten) := by
  rw [fetchAllMeetings, List.map_append, ← List.append_nil (List.map _ [lastR]),
    drain_ok_chain pre _ _ hpre]
  simp only [List.map_cons, List.map_nil, List.nil_append, drainLoop, hlast]
  simp [okAdvance_acc, initDrain]

/-- Closed witness for C1: a two-page drain. -/
theorem c1_witness :
    (fetchAllMeetings (([pageMore] ++ [pageLast]).map Outcome.ok)).1 =
      .ret ((([pageMore] ++ [pageLast]).map extractItems).flatten) :=
  c1_drain_returns_concatenation [pageMore] pageLast (by decide) (by decide)

/-! ### Claim C2 -/

/-- C2: if, after a chain of successful pages, every request for the next
page fails with status 429, the drain performs exactly 5 retries of that
page — six requests in total, all with the query cursor unchanged, as the
request log shows — waiting 2 s, 4 s, 8 s, 16 s, 32 s (milliseconds in the
backoff log) before the retries, and then returns normally the records
accumulated from the prior successful pages, consuming no further
outcome. -/
theorem c2_rate_limit_five_retries (pre : List UpResponse) (b : String)
    (extra : List Outcome) (hpre : ∀ r ∈ pre, (extractCursor r).isSome) :
    fetchAllMeetings
        (pre.map Outcome.ok ++ (List.replicate 6 (Outcome.err 429 b) ++ extra)) =
      (.ret ((pre.map extractItems).flatten),
       { acc := (pre.map extractItems).flatten
         retryCount := 6
         cursorParam := chainCursor pre none
         reqLog := chainReqLog pre none ++ List.replicate 6 (chainCursor pre none)
         backoffs := [2000, 4000, 8000, 16000, 32000]
         okLog := pre }) := by
  rw [fetchAllMeetings, drain_ok_chain pre _ _ hpre,
    drain_six_429 b extra _ (okAdvance_retryCount pre _ rfl)]
  rw [Prod.mk.injEq]
  constructor
  · rw [okAdvance_acc]; simp [initDrain]
  · simp [okAdvance_acc, okAdvance_backoffs, okAdvance_reqLog,
      okAdvance_cursorParam, okAdvance_okLog, initDrain]

/-- Closed witness for C2: one successful page, then six 429 responses. -/
theorem c2_witness :
    fetchAllMeetings
        ([pageMore].map Outcome.ok ++
          (List.replicate 6 (Outcome.err 429 "slow down") ++ [])) =
      (.ret (([pageMore].map extractItems).flatten),
       { acc := ([pageMore].map extractItems).flatten
         retryCount := 6
         cursorParam := chainCursor [pageMore] none
         reqLog := chainReqLog [pageMore] none ++
           List.replicate 6 (chainCursor [pageMore] none)
         backoffs := [2000, 4000, 8000, 16000, 32000]
         okLog := [pageMore] }) :=
  c2_rate_limit_five_retries [pageMore] "slow down" [] (by decide)

/-! ### Claim C3 -/

/-- C3 as stated is false: a page failure with status 500 whose message
mentions `429` (here via the error body) satisfies the source's
`error.message?.includes('429')` test, so the drain retries it instead of
propagating, and after exhausting retries it returns the partial list
accumulated from the prior page — contradicting both the abort and the
no-partial-list parts of the claim. -/
theorem c3_counterexample :
    (fetchAllMeetings
        (Outcome.ok pageMore ::
          List.replicate 6 (Outcome.err 500 "upstream saw 429"))).1 =
      .ret [recA] ∧
    (fetchAllMeetings
        (Outcome.ok pageMore ::
          List.replicate 6 (Outcome.err 500 "upstream saw 429"))).1 ≠
      .thrown 500 "upstream saw 429" := by
  decide

/-- C3 amended: if a page request fails with an error that the drain does
not classify as rate-limited — status other than 429 and message not
containing the substring `429` — `fetchAllMeetings` aborts the whole drain
by propagating that error; the outcome is the thrown error, not a normal
return, so no partial accumulated list reaches the caller. -/
theorem c3_amended_non429_aborts (pre : List UpResponse) (s : Nat)
    (b : String) (rest : List Outcome)
    (hpre : ∀ r ∈ pre, (extractCursor r).isSome)
    (h : is429 s b = false) :
    (fetchAllMeetings (pre.map Outcome.ok ++ Outcome.err s b :: rest)).1 =
      .thrown s b := by
  rw [fetchAllMeetings, drain_ok_chain pre _ _ hpre, drainLoop]
  simp [h]

/-- Closed witness for the amended C3: a 500 whose message has no `429`. -/
theorem c3_witness :
    (fetchAllMeetings
        ([pageMore].map Outcome.ok ++
          Outcome.err 500 "Internal Server Error" :: [])).1 =
      .thrown 500 "Internal Server Error" :=
  c3_amended_non429_aborts [pageMore] 500 "Internal Server Error" []
    (by decide) (by decide)

/-! ### Claim C4 -/

/-- C4: a `get` performed after `set(records)` at clock `t` returns exactly
`records` — the same list, unmodified and in order — while `now - t` is
under the 5-minute TTL; once the age reaches or exceeds the TTL the `get`
misses even though the slot still holds the records.  The hypothesis
`0 < t` states that the stored timestamp is a genuine positive clock
reading (as `Date.now()` always is); a zero timestamp would be falsy in
the source's truthiness test. -/
theorem c4_cache_ttl (records : List Meeting) (t now : Int) (ht : 0 < t) :
    (now - t < CACHE_TTL → cacheFresh (cacheSet records t) now = some records) ∧
    (CACHE_TTL ≤ now - t →
      cacheFresh (cacheSet records t) now = none ∧
      (cacheSet records t).meetingsCache = some records) := by
  constructor
  · intro h
    simp only [cacheFresh, cacheSet]
    rw [if_pos ⟨by omega, h⟩]
  · intro h
    refine ⟨?_, rfl⟩
    simp only [cacheFresh, cacheSet]
    rw [if_neg (by omega)]

/-- Closed witness for C4 within the TTL. -/
theorem c4_witness :
    ((2 : Int) - 1 < CACHE_TTL → cacheFresh (cacheSet [recA] 1) 2 = some [recA]) ∧
    (CACHE_TTL ≤ (2 : Int) - 1 →
      cacheFresh (cacheSet [recA] 1) 2 = none ∧
      (cacheSet [recA] 1).meetingsCache = some [recA]) :=
  c4_cache_ttl [recA] 1 2 (by decide)

/-! ### Claim C5 -/

/-- The interaction script of the C5 counterexample: a first page with a
cursor, six rate-limited failures, and a further page the upstream would
have served. -/
def cexScript5 : List Outcome :=
  Outcome.ok pageMore ::
    (List.replicate 6 (Outcome.err 429 "") ++ [Outcome.ok pageLast])

/-- C5 as stated is false: when rate-limit retries are exhausted mid-drain
the drain returns the partial accumulation and the handler caches it.  In
this scenario the cache ends up holding only the first page's record,
although the upstream result set of the scenario also contains the second
page's record, so the non-empty cache does not reflect a complete drain. -/
theorem c5_counterexample :
    getMeetingsHandler { meetingsCache := none, cacheTimestamp := none } 1
        cexScript5 =
      some (.items [recA],
        { meetingsCache := some [recA], cacheTimestamp := some 1 }) ∧
    allOkItems cexScript5 = [recA, recB] ∧
    serveList (allOkItems cexScript5) ≠ [recA] := by
  decide

/-- C5 amended: whenever the meetings handler writes the cache slot, the
new slot holds the serialization of the record list of a drain that
returned normally, stamped with the handler's clock reading, and that
record list is the page-by-page concatenation of the items of exactly the
successfully received pages — whole pages only, though possibly a
rate-limit-truncated prefix of the full upstream result set rather than a
complete drain. -/
theorem c5_amended_cache_whole_pages (st : CacheSt) (now : Int)
    (os : List Outcome) (res : MeetingsRes) (st' : CacheSt)
    (h : getMeetingsHandler st now os = some (res, st'))
    (hch : st'.meetingsCache ≠ st.meetingsCache) :
    (drainLoop os initDrain).1 = .ret ((drainLoop os initDrain).2.acc) ∧
    st'.meetingsCache = some (serveList ((drainLoop os initDrain).2.acc)) ∧
    st'.cacheTimestamp = some now ∧
    (drainLoop os initDrain).2.acc =
      (((drainLoop os initDrain).2.okLog).map extractItems).flatten := by
  have hinv := drain_okLog_inv os initDrain (by simp [initDrain])
  unfold getMeetingsHandler at h
  cases hf : cacheFresh st now with
  | some recs =>
    rw [hf] at h
    simp only [Option.some.injEq, Prod.mk.injEq] at h
    exact absurd (h.2 ▸ rfl) hch
  | none =>
    rw [hf] at h
    cases hd : drainLoop os initDrain with
    | mk dres dst =>
      rw [hd] at h
      cases dres with
      | ret records =>
        have hacc : records = dst.acc := drain_ret_acc os initDrain records dst hd
        simp only [Option.some.injEq, Prod.mk.injEq] at h
        rw [hd] at hinv
        refine ⟨by simp [hacc], ?_, ?_, hinv⟩
        · rw [← h.2]
          simp [cacheSet, hacc]
        · rw [← h.2]
          simp [cacheSet]
      | thrown s b =>
        simp only [Option.some.injEq, Prod.mk.injEq] at h
        exact absurd (h.2 ▸ rfl) hch
      | nofuel => simp at h

/-- Closed witness for the amended C5: a one-page drain filling an empty
cache. -/
theorem c5_witness :
    (drainLoop [Outcome.ok pageLast] initDrain).1 =
      .ret ((drainLoop [Outcome.ok pageLast] initDrain).2.acc) ∧
    (CacheSt.mk (some [recB]) (some 7)).meetingsCache =
      some (serveList ((drainLoop [Outcome.ok pageLast] initDrain).2.acc)) ∧
    (CacheSt.mk (some [recB]) (some 7)).cacheTimestamp = some 7 ∧
    (drainLoop [Outcome.ok pageLast] initDrain).2.acc =
      (((drainLoop [Outcome.ok pageLast] initDrain).2.okLog).map
          extractItems).flatten :=
  c5_amended_cache_whole_pages { meetingsCache := none, cacheTimestamp := none }
    7 [Outcome.ok pageLast] (.items [recB])
    { meetingsCache := some [recB], cacheTimestamp := some 7 }
    (by decide) (by decide)

/-! ### Claim C6 -/

theorem jsOr_chain_findSome (a b c : Option String) :
    (if truthyStr (jsOrS a (jsOrS b c)) then jsOrS a (jsOrS b c) else none) =
      [a, b, c].findSome?
        (fun o => o.bind (fun s => if s = "" then none else some s)) := by
  rcases a with _ | sa <;> rcases b with _ | sb <;> rcases c with _ | sc <;>
    simp only [jsOrS, truthyStr, List.findSome?, Option.bind] <;>
    split_ifs <;> simp_all [truthyStr]

/-- C6: item extraction checks the response shapes in the fixed priority
order — bare list, `items` key, `data` as a list, `data.items` — and takes
the first match as authoritative (it coincides with the ordered
first-match strategy table `extractItemsSpec`); cursor extraction likewise
checks `next_cursor`, then `cursor`, then `pagination.next_cursor`, the
first present truthy value winning (`extractCursorSpec`).  When no item
shape matches, the page contributes zero items but the drain does not
fail: the loop step appends nothing, still extracts the cursor, and
proceeds to the next page. -/
theorem c6_extraction_priority_order (r r2 r3 : UpResponse)
    (os : List Outcome) (st : DrainSt) (c : String)
    (hns : noShapeMatch r3 = true) (hc : extractCursor r3 = some c) :
    extractItems r = extractItemsSpec r ∧
    extractCursor r2 = extractCursorSpec r2 ∧
    extractItems r3 = [] ∧
    drainLoop (Outcome.ok r3 :: os) st =
      drainLoop os
        { acc := st.acc
          retryCount := 0
          cursorParam := some c
          reqLog := st.reqLog ++ [st.cursorParam]
          backoffs := st.backoffs
          okLog := st.okLog ++ [r3] } := by
  have hitems : ∀ u, extractItems u = extractItemsSpec u := by
    intro u
    cases u with
    | arr xs => rfl
    | obj p =>
      rcases p with ⟨items, data, nc, cu, pn⟩
      cases items <;> cases data <;>
        simp [extractItems, extractItemsSpec, shapeBare, shapeItems,
          shapeDataArr, shapeDataItems, List.findSome?]
  have hzero : extractItems r3 = [] := by
    rw [hitems r3, extractItemsSpec,
      Option.isNone_iff_eq_none.mp hns]
    rfl
  refine ⟨hitems r, ?_, hzero, ?_⟩
  · cases r2 with
    | arr xs => rfl
    | obj p => exact jsOr_chain_findSome p.next_cursor p.cursor p.pagNext
  · rw [drainLoop, hc, hzero, List.append_nil]

/-- A page response on which only the second cursor field is present. -/
def pageSecondCursor : UpResponse :=
  .obj { items := none, data := .missing, next_cursor := none,
         cursor := some "k", pagNext := some "z" }

/-- A page response matching none of the four item shapes, carrying a
`next_cursor`. -/
def pageNoShape : UpResponse :=
  .obj { items := none, data := .objNoItems, next_cursor := some "n",
         cursor := none, pagNext := none }

/-- Closed witness for C6: a response with no matching item shape but a
`next_cursor`, which contributes zero items while the drain proceeds. -/
theorem c6_witness :
    extractItems (UpResponse.arr [recA]) =
      extractItemsSpec (UpResponse.arr [recA]) ∧
    extractCursor pageSecondCursor = extractCursorSpec pageSecondCursor ∧
    extractItems pageNoShape = [] ∧
    drainLoop (Outcome.ok pageNoShape :: []) initDrain =
      drainLoop []
        { acc := initDrain.acc
          retryCount := 0
          cursorParam := some "n"
          reqLog := initDrain.reqLog ++ [initDrain.cursorParam]
          backoffs := initDrain.backoffs
          okLog := initDrain.okLog ++ [pageNoShape] } :=
  c6_extraction_priority_order (UpResponse.arr [recA]) pageSecondCursor
    pageNoShape [] initDrain "n" (by decide) (by decide)

/-! ### Claim C7 -/

/-- C7 as stated is false: the id `3.7` does not denote an integer, yet
`parseInt` extracts the leading digit run `3`, so the handler does not
answer 400 and the upstream transcript call is made with recording id 3 —
a non-integer id reaches the upstream call. -/
theorem c7_counterexample :
    (transcriptHandler "3.7" (.ok (.str "hello"))).status = 200 ∧
    (transcriptHandler "3.7" (.ok (.str "hello"))).upstreamCalled = some 3 := by
  constructor <;> rfl

/-- C7 amended: for every request whose id `parseInt` cannot parse at all
(no leading integer, e.g. `abc`), the handler returns status 400 with the
literal id echoed in the body and makes no upstream request; ids with a
parseable integer prefix (e.g. `3.7`), however, proceed upstream with that
prefix. -/
theorem c7_amended_nan_id_400 (id : String) (up : TOutcome)
    (h : parseIntJs id = none) :
    transcriptHandler id up =
      { status := 400, errorMsg := some "Invalid meeting ID",
        echoedId := some id, transcriptOut := none,
        upstreamCalled := none } := by
  unfold transcriptHandler
  rw [h]

/-- Closed witness for the amended C7 at id `abc`. -/
theorem c7_witness :
    transcriptHandler "abc" (.ok (.str "hello")) =
      { status := 400, errorMsg := some "Invalid meeting ID",
        echoedId := some "abc", transcriptOut := none,
        upstreamCalled := none } :=
  c7_amended_nan_id_400 "abc" (.ok (.str "hello")) rfl

/-! ### Claim C8 -/

/-- The record of the C8 counterexample: plain, missing `title`, carrying
`meeting_title`. -/
def c8rec : Meeting := .obj [("meeting_title", "X")] false false false

/-- C8 as stated is false: a plain record missing `title` but carrying
`meeting_title: "X"` passes through normalization unchanged — no `title`
field is added, because the fallback aliasing only runs when the record is
non-plain and JSON serialization fails. -/
theorem c8_counterexample :
    serializeMeeting c8rec = some c8rec ∧
    mTitle c8rec = none ∧
    serveList [c8rec] = [c8rec] := by
  decide

/-- C8 amended: the `meeting_title → title` fallback aliasing applies only
on the fallback path — a record marked non-plain (truthy `toJSON` or
`to_dict` member) whose JSON serialization fails normalizes to a record
whose `title` is taken from `meeting_title` when `title` is missing or
empty; a null record normalizes to absent, and the served list never
contains a null entry. -/
theorem c8_amended_fallback_aliasing (fs : List (String × String))
    (hTJ hTD : Bool) (x : String) (ms : List Meeting)
    (hflag : (hTJ || hTD) = true)
    (htitle : truthyStr (fget fs "title") = false)
    (hmt : fget fs "meeting_title" = some x) :
    mTitle ((serializeMeeting (.obj fs hTJ hTD true)).getD .nullv) = some x ∧
    serializeMeeting .nullv = none ∧
    Meeting.nullv ∉ serveList ms := by
  have hplain : (!hTJ && !hTD) = false := by
    cases hTJ <;> cases hTD <;> simp_all
  refine ⟨?_, rfl, ?_⟩
  · simp only [serializeMeeting, hplain, Bool.false_eq_true, if_false,
      Bool.not_true, Option.getD_some, mTitle]
    have halias : jsOrS (fget fs "title") (fget fs "meeting_title") = some x := by
      rw [jsOrS, if_neg]
      · exact hmt
      · simp [htitle]
    unfold fallbackFields
    rw [halias]
    cases jsOrS (fget fs "recording_id") (fget fs "id") with
    | none => simp [addF, fget, List.lookup]
    | some s => simp [addF, fget, List.lookup]
  · intro hmem
    obtain ⟨m, hm, hser⟩ := List.mem_filterMap.mp hmem
    cases m with
    | nullv => simp [serializeMeeting] at hser
    | obj fs' a b c =>
      simp only [serializeMeeting] at hser
      split_ifs at hser <;> simp at hser

/-- Closed witness for the amended C8: the fallback path aliases
`meeting_title` into `title`, and a null entry is dropped from the served
list. -/
theorem c8_witness :
    mTitle ((serializeMeeting (.obj [("meeting_title", "X")] true false
        true)).getD .nullv) = some "X" ∧
    serializeMeeting .nullv = none ∧
    Meeting.nullv ∉ serveList [Meeting.nullv, c8rec] :=
  c8_amended_fallback_aliasing [("meeting_title", "X")] true false "X"
    [Meeting.nullv, c8rec] (by decide) (by decide) (by decide)

/-! ### Claim C9 -/

/-- C9: if the upstream transcript request succeeds but the extracted
transcript value is falsy (for example the empty string, when the upstream
answers with a bare empty string), the handler returns 404 `Transcript not
found` instead of 200 — and the response coincides, field for field, with
the response to an upstream 404, so a successfully fetched empty
transcript is indistinguishable from an absent one at the public
interface. -/
theorem c9_falsy_transcript_404 (id : String) (rid : Int) (r : TVal)
    (b : String) (hid : parseIntJs id = some rid)
    (hfalsy : truthy (extractTranscript r) = false) :
    transcriptHandler id (.ok r) =
      { status := 404, errorMsg := some "Transcript not found",
        echoedId := some id, transcriptOut := none,
        upstreamCalled := some rid } ∧
    transcriptHandler id (.ok r) = transcriptHandler id (.err 404 b) := by
  unfold transcriptHandler
  rw [hid]
  simp [hfalsy]

/-- Closed witness for C9: upstream answers the bare empty string. -/
theorem c9_witness :
    transcriptHandler "42" (.ok (.str "")) =
      { status := 404, errorMsg := some "Transcript not found",
        echoedId := some "42", transcriptOut := none,
        upstreamCalled := some 42 } ∧
    transcriptHandler "42" (.ok (.str "")) =
      transcriptHandler "42" (.err 404 "gone") :=
  c9_falsy_transcript_404 "42" 42 (.str "") "gone" rfl rfl

/-! ### Claim C10 -/

/-- C10: on a cache miss the timestamp stored with the newly cached records
is the clock value `now` captured before the drain began (not the
completion time `now + dur`); consequently, for a drain lasting `dur` ms,
the entry read `extraT` ms after completion is fresh exactly when
`extraT < CACHE_TTL - dur` — the effective freshness window is the TTL
minus the drain's duration. -/
theorem c10_timestamp_predrain (st : CacheSt) (now dur extraT : Int)
    (os : List Outcome) (records : List Meeting) (dst : DrainSt)
    (hmiss : cacheFresh st now = none)
    (hdrain : drainLoop os initDrain = (.ret records, dst))
    (hnow : 0 < now) (_hdur : 0 ≤ dur) (_hextra : 0 ≤ extraT) :
    getMeetingsHandler st now os =
      some (.items (serveList records), cacheSet (serveList records) now) ∧
    (cacheFresh (cacheSet (serveList records) now) (now + dur + extraT) =
        some (serveList records) ↔ extraT < CACHE_TTL - dur) := by
  constructor
  · unfold getMeetingsHandler
    rw [hmiss, hdrain]
  · simp only [cacheFresh, cacheSet]
    constructor
    · intro h
      by_cases hcond : now ≠ 0 ∧ now + dur + extraT - now < CACHE_TTL
      · omega
      · rw [if_neg hcond] at h
        exact absurd h (by simp)
    · intro h
      rw [if_pos ⟨by omega, by omega⟩]

/-- Closed witness for C10: an instantaneous one-page drain at clock 1. -/
theorem c10_witness :
    getMeetingsHandler { meetingsCache := none, cacheTimestamp := none } 1
        [Outcome.ok pageLast] =
      some (.items (serveList [recB]), cacheSet (serveList [recB]) 1) ∧
    (cacheFresh (cacheSet (serveList [recB]) 1) (1 + 0 + 0) =
        some (serveList [recB]) ↔ (0 : Int) < CACHE_TTL - 0) :=
  c10_timestamp_predrain { meetingsCache := none, cacheTimestamp := none }
    1 0 0 [Outcome.ok pageLast] [recB]
    { acc := [recB], retryCount := 0, cursorParam := none,
      reqLog := [none], backoffs := [], okLog := [pageLast] }
    (by decide) (by decide) (by decide) (by decide) (by decide)

end Fathom
